import Mathlib

/-!
Shallow embedding of `src/rsi_sim_bot.py`: the RSI simulation trading bot.
Prices, balances and indicator values are modelled as rationals (`ℚ`);
the Python `portfolio` dict becomes a `Portfolio` structure, the
`positions` dict an association list with Python-dict semantics
(first-match lookup, replace-or-append assignment, key deletion), and the
module-level `price_history` dict a function from pair name to price list.
`simulate_buy` / `simulate_sell` are state-passing translations of the
functions of the same names; `runTick` is one iteration of the `while`
loop body of `main` over the per-pair market data of that cycle.
-/

namespace RsiSimBot

/-- Configuration constant `RSI_PERIOD = 14` (line 31). -/
def RSI_PERIOD : ℕ := 14

/-- Configuration constant `BUY_THRESHOLD = 30` (line 32). -/
def BUY_THRESHOLD : ℚ := 30

/-- Configuration constant `SELL_THRESHOLD = 70` (line 33). -/
def SELL_THRESHOLD : ℚ := 70

/-- Configuration constant `STARTING_BALANCE = 202.00` (line 34). -/
def STARTING_BALANCE : ℚ := 202

/-- Configuration constant `STOP_LOSS_PERCENT = 5.0` (line 35). -/
def STOP_LOSS_PERCENT : ℚ := 5

/-- Configuration constant `RECENT_DROP_THRESHOLD = 5.0` (line 36). -/
def RECENT_DROP_THRESHOLD : ℚ := 5

/-- Configuration constant `LOOKBACK_PERIOD = 15` (line 37). -/
def LOOKBACK_PERIOD : ℕ := 15

/-- Configuration constant `MIN_TRADE_USD = 50` (line 38). -/
def MIN_TRADE_USD : ℚ := 50

/-- An open position: `{'amount': ..., 'buy_price': ...}` (line 44, 190). -/
structure Position where
  amount : ℚ
  buy_price : ℚ
  deriving DecidableEq, Repr

/-- The `portfolio['positions']` dict, as an association list keyed by pair name. -/
abbrev Positions := List (String × Position)

/-- Python dict read: first (unique) entry with the given key. -/
def dictGet : Positions → String → Option Position
  | [], _ => none
  | (k, v) :: rest, key => if k = key then some v else dictGet rest key

/-- Number of entries stored under a key (always 0 or 1 for a faithful
image of a Python dict). -/
def countKey : Positions → String → ℕ
  | [], _ => 0
  | (k, _) :: rest, key => (if k = key then 1 else 0) + countKey rest key

/-- Python dict assignment `d[key] = v`: replace the entry in place if the key
is present, else append a new entry (insertion order preserved). -/
def dictSet : Positions → String → Position → Positions
  | [], key, v => [(key, v)]
  | (k, v0) :: rest, key, v =>
      if k = key then (key, v) :: rest else (k, v0) :: dictSet rest key v

/-- Python `del d[key]`: remove the entry with the given key. -/
def dictDel (ps : Positions) (key : String) : Positions :=
  ps.filter (fun e => e.1 ≠ key)

/-- The simulated `portfolio` dict (lines 42-45): cash balance `'USDT'`
and the map of open positions. -/
structure Portfolio where
  usdt : ℚ
  positions : Positions
  deriving DecidableEq, Repr

/-- The bot's mutable module state: the `portfolio` dict plus the
`price_history` dict (line 48), one rolling price buffer per pair. -/
structure BotState where
  portfolio : Portfolio
  price_history : String → List ℚ

/-- The initial module state: `USDT = STARTING_BALANCE`, no positions,
every pair's history empty (lines 42-48). -/
def initState : BotState :=
  { portfolio := { usdt := STARTING_BALANCE, positions := [] },
    price_history := fun _ => [] }

/-- Lines 160-162: `history.append(price)`, then `history.pop(0)` once the
buffer exceeds `LOOKBACK_PERIOD`. -/
def pushHistory (h : List ℚ) (price : ℚ) : List ℚ :=
  let h2 := h ++ [price]
  if LOOKBACK_PERIOD < h2.length then h2.tail else h2

/-- Lines 164-167: recent drop % computed against the oldest buffered price
once the buffer holds exactly `LOOKBACK_PERIOD` entries, else `0.0`.
`h` is the buffer after the current price has been appended. -/
def recentDropOf (h : List ℚ) (price : ℚ) : ℚ :=
  if h.length = LOOKBACK_PERIOD then ((price - h.headD 0) / h.headD 0) * 100 else 0

/-- Lines 177-180: inverse-volatility allocation fraction,
`min(0.5, max(0.05, 0.2 / volatility))` when volatility is positive, else `0.1`.
The source computes `volatility` as the standard deviation of percentage
returns (an irrational real in general); here it is passed in as an abstract
rational parameter, which only enters the trade logic through this fraction. -/
def allocationPct (volatility : ℚ) : ℚ :=
  if 0 < volatility then min 0.5 (max 0.05 (0.2 / volatility)) else 0.1

/-- `simulate_buy` (lines 144-197). `rsi = none` stands for Python `None`/NaN
(both rejected by line 147); the checks, the history update and the portfolio
mutation follow the source line by line. Returns the Python boolean result
together with the updated module state. -/
def simulate_buy (st : BotState) (pair : String) (price : ℚ) (rsi : Option ℚ)
    (volatility : ℚ) : Bool × BotState :=
  match rsi with
  | none => (false, st)
  | some r =>
    if r = 0 then (false, st)
    else if BUY_THRESHOLD ≤ r then (false, st)
    else if (dictGet st.portfolio.positions pair).isSome then (false, st)
    else
      let history := pushHistory (st.price_history pair) price
      let st1 : BotState :=
        { st with price_history := fun p => if p = pair then history else st.price_history p }
      let recent_drop := recentDropOf history price
      if recent_drop ≤ -RECENT_DROP_THRESHOLD then (false, st1)
      else
        let amount_to_spend := st1.portfolio.usdt * allocationPct volatility
        if amount_to_spend < MIN_TRADE_USD then (false, st1)
        else
          let amount := amount_to_spend / price
          if 0 < amount ∧ amount_to_spend ≤ st1.portfolio.usdt then
            (true,
              { st1 with
                portfolio :=
                  { usdt := st1.portfolio.usdt - amount_to_spend,
                    positions := dictSet st1.portfolio.positions pair
                      { amount := amount, buy_price := price } } })
          else (false, st1)

/-- Line 219's `rsi > SELL_THRESHOLD`, with `none` (NaN) comparing false as in
Python. -/
def rsiAboveSell (rsi : Option ℚ) : Bool :=
  match rsi with
  | some r => SELL_THRESHOLD < r
  | none => false

/-- `simulate_sell` (lines 200-226): stop loss first, then the RSI exit. -/
def simulate_sell (st : BotState) (pair : String) (price : ℚ) (rsi : Option ℚ) :
    Bool × BotState :=
  match dictGet st.portfolio.positions pair with
  | none => (false, st)
  | some pos =>
    let loss_pct := ((price - pos.buy_price) / pos.buy_price) * 100
    if loss_pct ≤ -STOP_LOSS_PERCENT then
      (true,
        { st with
          portfolio :=
            { usdt := st.portfolio.usdt + pos.amount * price,
              positions := dictDel st.portfolio.positions pair } })
    else if rsiAboveSell rsi then
      (true,
        { st with
          portfolio :=
            { usdt := st.portfolio.usdt + pos.amount * price,
              positions := dictDel st.portfolio.positions pair } })
    else (false, st)

/-- One call of either trading operation, with the market inputs it received. -/
inductive Op where
  | buy (pair : String) (price : ℚ) (rsi : Option ℚ) (volatility : ℚ)
  | sell (pair : String) (price : ℚ) (rsi : Option ℚ)

/-- The market price an operation was invoked with. -/
def Op.price : Op → ℚ
  | .buy _ p _ _ => p
  | .sell _ p _ => p

/-- Apply one operation to the module state, discarding the boolean result. -/
def applyOp (st : BotState) : Op → BotState
  | .buy pair price rsi vol => (simulate_buy st pair price rsi vol).2
  | .sell pair price rsi => (simulate_sell st pair price rsi).2

/-- Run a sequence of `simulate_buy` / `simulate_sell` calls from a state. -/
def run (st : BotState) (ops : List Op) : BotState :=
  ops.foldl applyOp st

/-- `max_buys_per_cycle = 1` (line 231). -/
def max_buys_per_cycle : ℕ := 1

/-- The per-pair market data one cycle of `main` obtains for one tradable
pair: latest price, latest RSI and the volatility fed to `simulate_buy`
(lines 243-253). Pairs skipped for lack of data simply do not appear. -/
structure TickDatum where
  pair : String
  price : ℚ
  rsi : Option ℚ
  volatility : ℚ

/-- Accumulator of one cycle of `main`: the module state, the
`buys_this_cycle` counter, and (for observation) the pairs bought, in order. -/
structure TickAcc where
  st : BotState
  buys_this_cycle : ℕ
  bought : List String

/-- Lines 257-266 of `main` for one pair: always try `simulate_sell` first,
then, if nothing was sold and the per-cycle buy limit is not reached, try
`simulate_buy`, counting a successful buy. -/
def tickStep (acc : TickAcc) (d : TickDatum) : TickAcc :=
  let sell_result := simulate_sell acc.st d.pair d.price d.rsi
  if sell_result.1 = false ∧ acc.buys_this_cycle < max_buys_per_cycle then
    let buy_result := simulate_buy sell_result.2 d.pair d.price d.rsi d.volatility
    if buy_result.1 then
      { st := buy_result.2, buys_this_cycle := acc.buys_this_cycle + 1,
        bought := acc.bought ++ [d.pair] }
    else
      { st := buy_result.2, buys_this_cycle := acc.buys_this_cycle,
        bought := acc.bought }
  else
    { st := sell_result.2, buys_this_cycle := acc.buys_this_cycle,
      bought := acc.bought }

/-- One iteration of the `while True` loop of `main` (lines 233-266): the
pairs are visited in the fixed order of `TRADING_PAIRS`, as listed in `data`,
starting with `buys_this_cycle = 0`. -/
def runTick (st : BotState) (data : List TickDatum) : TickAcc :=
  data.foldl tickStep { st := st, buys_this_cycle := 0, bought := [] }

/-- `series.diff()` without its leading NaN: the list of successive price
deltas, `diffs s` at index `k` being pandas `delta[k+1]` (line 52). -/
def diffs (s : List ℚ) : List ℚ :=
  (s.zip s.tail).map (fun p => p.2 - p.1)

/-- `delta.clip(lower=0)` (line 53). -/
def gains (s : List ℚ) : List ℚ :=
  (diffs s).map (fun d => max d 0)

/-- `-delta.clip(upper=0)` (line 54). -/
def losses (s : List ℚ) : List ℚ :=
  (diffs s).map (fun d => max (-d) 0)

/-- `gain.rolling(window=period, min_periods=period).mean()` at series index
`i` (line 56): the arithmetic mean of the `period` deltas ending at index `i`,
meaningful when `period ≤ i < s.length` (the windows pandas leaves as NaN are
screened off by `calculate_rsi` below). -/
def avg_gain (s : List ℚ) (period i : ℕ) : ℚ :=
  (((gains s).drop (i - period)).take period).sum / (period : ℚ)

/-- `loss.rolling(window=period, min_periods=period).mean()` at series index
`i` (line 57). -/
def avg_loss (s : List ℚ) (period i : ℕ) : ℚ :=
  (((losses s).drop (i - period)).take period).sum / (period : ℚ)

/-- Lines 59-63 for one index: `rs = avg_gain/avg_loss`,
`rsi = 100 - 100/(1+rs)`, then the mask assignments `rsi[avg_loss == 0] = 100`
and `rsi[(avg_gain == 0) & (avg_loss == 0)] = 50`, applied in source order.
(When `avg_loss = 0` the float code produces `inf`/NaN for `rs`; the rational
convention `x / 0 = 0` used here is immaterial because both such indices are
overwritten by the masks, exactly as in the source.) -/
def rsiVal (g l : ℚ) : ℚ :=
  let rs := g / l
  let rsi0 := 100 - 100 / (1 + rs)
  let rsi1 := if l = 0 then 100 else rsi0
  if g = 0 ∧ l = 0 then 50 else rsi1

/-- `calculate_rsi` (lines 51-65) over a price series: one entry per input
index, `none` for the indices where the rolling windows are not yet full
(fewer than `period` deltas available, pandas NaN). -/
def calculate_rsi (series : List ℚ) (period : ℕ) : List (Option ℚ) :=
  (List.range series.length).map (fun i =>
    if period ≤ i then some (rsiVal (avg_gain series period i) (avg_loss series period i))
    else none)

/-- Wilder's recursive smoothing: from a current average `a`, each further
sample `x` yields `a + (1/period) * (x - a)`; the returned list starts with
`a` itself. Written to the spec's formula, for comparison with the rolling
mean the source actually uses. -/
def wilderFrom (period : ℕ) (a : ℚ) : List ℚ → List ℚ
  | [] => [a]
  | x :: xs => a :: wilderFrom period (a + (1 / (period : ℚ)) * (x - a)) xs

/-- Wilder-smoothed averages of a sample list, seeded by the simple average
of the first `period` samples; entry `j` is the smoothed average after
consuming samples `0..period-1+j`. -/
def wilderAvgs (xs : List ℚ) (period : ℕ) : List ℚ :=
  wilderFrom period ((xs.take period).sum / (period : ℚ)) (xs.drop period)

/-- The momentum computation as the spec describes it: identical to
`calculate_rsi` except that the gain/loss averages are Wilder-smoothed
(seed = simple average of the first `period` deltas, smoothing factor
`1/period`) instead of rolling means. -/
def rsi_wilder (series : List ℚ) (period : ℕ) : List (Option ℚ) :=
  (List.range series.length).map (fun i =>
    if period ≤ i then
      some (rsiVal (((wilderAvgs (gains series) period)[i - period]?).getD 0)
                   (((wilderAvgs (losses series) period)[i - period]?).getD 0))
    else none)

/-- The balance-sheet invariant the ledger maintains: cash is non-negative
and every open position holds a non-negative amount. -/
def PortfolioInv (p : Portfolio) : Prop :=
  0 ≤ p.usdt ∧ ∀ e ∈ p.positions, 0 ≤ e.2.amount

/-- A 16-price series (15 deltas, so RSI is defined at indices 14 and 15):
one unit up, thirteen flat steps, one unit down. -/
def seriesCex : List ℚ :=
  [100, 101, 101, 101, 101, 101, 101, 101, 101, 101, 101, 101, 101, 101, 101, 100]

/-- A strictly rising 15-price series: every delta is a gain. -/
def seriesUp : List ℚ :=
  [100, 101, 102, 103, 104, 105, 106, 107, 108, 109, 110, 111, 112, 113, 114]

/-- A flat 15-price series: every delta is zero. -/
def seriesFlat : List ℚ := List.replicate 15 100

/-- The spec's buy scenario state: cash `200`, nothing held, and 14 prices
(all `100`) already buffered for `'ETHUSDT'`, so that a 15th observed price
of `98` makes the recent-drop buffer full with a drop of exactly `-2%`. -/
def scenarioState : BotState :=
  { portfolio := { usdt := 200, positions := [] },
    price_history := fun p => if p = "ETHUSDT" then List.replicate 14 100 else [] }

/-- A state holding one position in `'ETHUSDT'`: 1 unit bought at `100`,
cash `102`. -/
def holdingState : BotState :=
  { portfolio := { usdt := 102,
                   positions := [("ETHUSDT", { amount := 1, buy_price := 100 })] },
    price_history := fun _ => [] }

/-- Tick data with two fresh `BUY` candidates, in `TRADING_PAIRS` order:
`'ETHUSDT'` at momentum 28 and `'BTCUSDT'` at momentum 20, both passing every
guard (volatility `2/5` gives allocation fraction `0.5`, so the proposed
spend clears `MIN_TRADE_USD`). -/
def cexData : List TickDatum :=
  [{ pair := "ETHUSDT", price := 100, rsi := some 28, volatility := 2/5 },
   { pair := "BTCUSDT", price := 100, rsi := some 20, volatility := 2/5 }]

/-- A short operation sequence: one buy, then a stop-loss sell. -/
def opsW : List Op :=
  [Op.buy "ETHUSDT" 100 (some 25) (2/5), Op.sell "ETHUSDT" 94 (some 60)]


theorem dictGet_mem {ps : Positions} {key : String} {v : Position}
    (h : dictGet ps key = some v) : (key, v) ∈ ps := by
  induction ps with
  | nil => simp [dictGet] at h
  | cons e rest ih =>
    obtain ⟨k, v0⟩ := e
    by_cases hk : k = key
    · subst hk
      simp [dictGet] at h
      simp [h]
    · simp [dictGet, hk] at h
      exact List.mem_cons_of_mem _ (ih h)

theorem mem_dictSet {ps : Positions} {key : String} {v : Position} {e : String × Position}
    (h : e ∈ dictSet ps key v) : e ∈ ps ∨ e = (key, v) := by
  induction ps with
  | nil => simp [dictSet] at h; simp [h]
  | cons a rest ih =>
    obtain ⟨k, v0⟩ := a
    by_cases hk : k = key
    · subst hk
      simp [dictSet] at h
      rcases h with h | h
      · right; simp [h]
      · left; exact List.mem_cons_of_mem _ h
    · simp [dictSet, hk] at h
      rcases h with h | h
      · left; simp [h]
      · rcases ih h with h' | h'
        · left; exact List.mem_cons_of_mem _ h'
        · right; exact h'

theorem mem_dictDel {ps : Positions} {key : String} {e : String × Position}
    (h : e ∈ dictDel ps key) : e ∈ ps :=
  List.mem_of_mem_filter h

theorem dictDel_cons (k0 : String) (v0 : Position) (rest : Positions) (key : String) :
    dictDel ((k0, v0) :: rest) key =
      if k0 = key then dictDel rest key else (k0, v0) :: dictDel rest key := by
  by_cases h : k0 = key <;> simp [dictDel, List.filter_cons, h]

theorem dictGet_dictDel_self (ps : Positions) (key : String) :
    dictGet (dictDel ps key) key = none := by
  induction ps with
  | nil => rfl
  | cons a rest ih =>
    obtain ⟨k0, v0⟩ := a
    rw [dictDel_cons]
    by_cases hk : k0 = key
    · simpa [hk] using ih
    · simpa [dictGet, hk] using ih

theorem countKey_dictDel_le (ps : Positions) (key k : String) :
    countKey (dictDel ps key) k ≤ countKey ps k := by
  induction ps with
  | nil => simp [dictDel, countKey]
  | cons a rest ih =>
    obtain ⟨k0, v0⟩ := a
    rw [dictDel_cons]
    by_cases hk : k0 = key
    · rw [if_pos hk]
      exact le_trans ih (Nat.le_add_left _ _)
    · rw [if_neg hk]
      simp only [countKey]
      exact Nat.add_le_add_left ih _

theorem countKey_dictSet_ne (ps : Positions) (key : String) (v : Position) (k : String)
    (hk : k ≠ key) : countKey (dictSet ps key v) k = countKey ps k := by
  induction ps with
  | nil => simp [dictSet, countKey, if_neg (Ne.symm hk)]
  | cons a rest ih =>
    obtain ⟨k0, v0⟩ := a
    by_cases h0 : k0 = key
    · subst h0
      simp [dictSet, countKey]
    · simp [dictSet, countKey, h0, ih]

theorem countKey_dictSet_self (ps : Positions) (key : String) (v : Position) :
    countKey (dictSet ps key v) key ≤ max 1 (countKey ps key) := by
  induction ps with
  | nil => simp [dictSet, countKey]
  | cons a rest ih =>
    obtain ⟨k0, v0⟩ := a
    by_cases h0 : k0 = key
    · subst h0
      simp [dictSet, countKey]
    · simp [dictSet, countKey, h0]
      exact le_max_iff.mp ih



theorem simulate_buy_portfolioInv (st : BotState) (pair : String) (price : ℚ)
    (rsi : Option ℚ) (vol : ℚ) (h : PortfolioInv st.portfolio) :
    PortfolioInv (simulate_buy st pair price rsi vol).2.portfolio := by
  rcases rsi with _ | r
  · exact h
  · simp only [simulate_buy]
    split_ifs with h1 h2 h3 h4 h5 h6
    · exact h
    · exact h
    · exact h
    · exact h
    · exact h
    · refine ⟨?_, ?_⟩
      · simpa using sub_nonneg.mpr h6.2
      · intro e he
        rcases mem_dictSet he with h' | h'
        · exact h.2 e h'
        · subst h'
          simpa using le_of_lt h6.1
    · exact h

theorem simulate_sell_portfolioInv (st : BotState) (pair : String) (price : ℚ)
    (rsi : Option ℚ) (hp : 0 ≤ price) (h : PortfolioInv st.portfolio) :
    PortfolioInv (simulate_sell st pair price rsi).2.portfolio := by
  rcases hpos : dictGet st.portfolio.positions pair with _ | pos
  · simp only [simulate_sell, hpos]
    exact h
  · have hamt : 0 ≤ pos.amount := h.2 _ (dictGet_mem hpos)
    simp only [simulate_sell, hpos]
    split_ifs with h1 h2
    · exact ⟨add_nonneg h.1 (mul_nonneg hamt hp), fun e he => h.2 e (mem_dictDel he)⟩
    · exact ⟨add_nonneg h.1 (mul_nonneg hamt hp), fun e he => h.2 e (mem_dictDel he)⟩
    · exact h

theorem run_portfolioInv (ops : List Op) (st : BotState)
    (hp : ∀ op ∈ ops, 0 ≤ op.price) (h : PortfolioInv st.portfolio) :
    PortfolioInv (run st ops).portfolio := by
  induction ops generalizing st with
  | nil => exact h
  | cons op rest ih =>
    have hop := hp op (List.mem_cons_self op rest)
    have hrest : ∀ o ∈ rest, 0 ≤ o.price := fun o ho => hp o (List.mem_cons_of_mem _ ho)
    rcases op with ⟨pair, price, rsi, vol⟩ | ⟨pair, price, rsi⟩
    · exact ih _ hrest (simulate_buy_portfolioInv st pair price rsi vol h)
    · exact ih _ hrest (simulate_sell_portfolioInv st pair price rsi hop h)



theorem simulate_buy_countKey (st : BotState) (pair : String) (price : ℚ)
    (rsi : Option ℚ) (vol : ℚ) (h : ∀ p, countKey st.portfolio.positions p ≤ 1) :
    ∀ p, countKey (simulate_buy st pair price rsi vol).2.portfolio.positions p ≤ 1 := by
  rcases rsi with _ | r
  · exact h
  · simp only [simulate_buy]
    split_ifs with h1 h2 h3 h4 h5 h6
    · exact h
    · exact h
    · exact h
    · exact h
    · exact h
    · intro p
      by_cases hp : p = pair
      · subst hp
        refine le_trans (countKey_dictSet_self _ _ _) ?_
        exact max_le le_rfl (h p)
      · simpa [countKey_dictSet_ne _ _ _ _ hp] using h p
    · exact h

theorem simulate_sell_countKey (st : BotState) (pair : String) (price : ℚ)
    (rsi : Option ℚ) (h : ∀ p, countKey st.portfolio.positions p ≤ 1) :
    ∀ p, countKey (simulate_sell st pair price rsi).2.portfolio.positions p ≤ 1 := by
  rcases hpos : dictGet st.portfolio.positions pair with _ | pos
  · simp only [simulate_sell, hpos]
    exact h
  · simp only [simulate_sell, hpos]
    split_ifs with h1 h2
    · exact fun p => le_trans (countKey_dictDel_le _ _ _) (h p)
    · exact fun p => le_trans (countKey_dictDel_le _ _ _) (h p)
    · exact h

theorem run_countKey (ops : List Op) (st : BotState)
    (h : ∀ p, countKey st.portfolio.positions p ≤ 1) :
    ∀ p, countKey (run st ops).portfolio.positions p ≤ 1 := by
  induction ops generalizing st with
  | nil => exact h
  | cons op rest ih =>
    rcases op with ⟨pair, price, rsi, vol⟩ | ⟨pair, price, rsi⟩
    · exact ih _ (simulate_buy_countKey st pair price rsi vol h)
    · exact ih _ (simulate_sell_countKey st pair price rsi h)

/-- C1: starting from the initial balance, no sequence of `simulate_buy` /
`simulate_sell` calls with non-negative market prices can drive the `'USDT'`
cash balance negative: a buy spends `cash × allocation fraction` with the
fraction at most `0.5`, is additionally checked against the current balance,
and a sell only credits cash. -/
theorem cash_balance_never_negative (ops : List Op)
    (hp : ∀ op ∈ ops, 0 ≤ op.price) :
    0 ≤ (run initState ops).portfolio.usdt :=
  (run_portfolioInv ops initState hp
    ⟨by norm_num [initState, STARTING_BALANCE], by simp [initState]⟩).1

theorem cash_balance_never_negative_witness :
    (∀ op ∈ opsW, 0 ≤ op.price) ∧ 0 ≤ (run initState opsW).portfolio.usdt := by
  have hp : ∀ op ∈ opsW, 0 ≤ op.price := by decide
  exact ⟨hp, cash_balance_never_negative opsW hp⟩

/-- C2: for every pair, at most one open position exists at any reachable
state, and `simulate_buy` returns `False`, leaving the state untouched,
whenever the pair is already present in the positions map. -/
theorem at_most_one_position_per_pair :
    (∀ ops pair, countKey (run initState ops).portfolio.positions pair ≤ 1) ∧
    (∀ st pair price rsi vol, (dictGet st.portfolio.positions pair).isSome →
      simulate_buy st pair price rsi vol = (false, st)) := by
  constructor
  · intro ops pair
    exact run_countKey ops initState (by intro p; simp [initState, countKey]) pair
  · intro st pair price rsi vol h
    rcases rsi with _ | r
    · rfl
    · simp only [simulate_buy]
      split_ifs <;> rfl

theorem at_most_one_position_per_pair_witness :
    (dictGet holdingState.portfolio.positions "ETHUSDT").isSome ∧
    simulate_buy holdingState "ETHUSDT" 95 (some 20) 1 = (false, holdingState) := by
  have h : (dictGet holdingState.portfolio.positions "ETHUSDT").isSome := by decide
  exact ⟨h, at_most_one_position_per_pair.2 holdingState "ETHUSDT" 95 (some 20) 1 h⟩



theorem calculate_rsi_getElem (s : List ℚ) (p i : ℕ) (h1 : p ≤ i) (h2 : i < s.length) :
    (calculate_rsi s p)[i]? = some (some (rsiVal (avg_gain s p i) (avg_loss s p i))) := by
  simp [calculate_rsi, List.getElem?_map, List.getElem?_range, h2, h1]

theorem rsi_wilder_getElem (s : List ℚ) (p i : ℕ) (h1 : p ≤ i) (h2 : i < s.length) :
    (rsi_wilder s p)[i]? =
      some (some (rsiVal (((wilderAvgs (gains s) p)[i - p]?).getD 0)
                         (((wilderAvgs (losses s) p)[i - p]?).getD 0))) := by
  simp [rsi_wilder, List.getElem?_map, List.getElem?_range, h2, h1]

theorem wilderFrom_getElem_zero (p : ℕ) (a : ℚ) (l : List ℚ) :
    (wilderFrom p a l)[0]? = some a := by
  cases l <;> simp [wilderFrom]

/-- C3 (counterexample): on a concrete 16-price series the code's momentum at
index 15 (a simple rolling mean of the last 14 gains/losses) differs from the
value Wilder's exponential smoothing would give: `0` versus `1300/27`. -/
theorem rsi_not_wilder_counterexample :
    (calculate_rsi seriesCex RSI_PERIOD)[15]? ≠ (rsi_wilder seriesCex RSI_PERIOD)[15]? := by
  have h1 : (calculate_rsi seriesCex RSI_PERIOD)[15]? = some (some 0) := by
    rw [calculate_rsi_getElem seriesCex RSI_PERIOD 15 (by norm_num [RSI_PERIOD])
      (by norm_num [seriesCex])]
    norm_num [avg_gain, avg_loss, gains, losses, diffs, rsiVal, seriesCex, RSI_PERIOD]
  have h2 : (rsi_wilder seriesCex RSI_PERIOD)[15]? = some (some (1300/27)) := by
    rw [rsi_wilder_getElem seriesCex RSI_PERIOD 15 (by norm_num [RSI_PERIOD])
      (by norm_num [seriesCex])]
    norm_num [wilderAvgs, wilderFrom, gains, losses, diffs, rsiVal, seriesCex, RSI_PERIOD]
  rw [h1, h2]
  norm_num

/-- C3 (amended): the code's gain/loss averages are simple rolling means, not
Wilder's recursion; but both are seeded identically (simple average of the
first `P` deltas), so at the first index with `P` deltas available the code's
momentum coincides with the Wilder-smoothed momentum. -/
theorem rsi_agrees_with_wilder_at_seed (series : List ℚ) (period : ℕ)
    (h : period < series.length) :
    (calculate_rsi series period)[period]? = (rsi_wilder series period)[period]? := by
  rw [calculate_rsi_getElem series period period le_rfl h,
      rsi_wilder_getElem series period period le_rfl h]
  have hg : ((wilderAvgs (gains series) period)[period - period]?).getD 0 =
      avg_gain series period period := by
    simp [wilderAvgs, wilderFrom_getElem_zero, avg_gain]
  have hl : ((wilderAvgs (losses series) period)[period - period]?).getD 0 =
      avg_loss series period period := by
    simp [wilderAvgs, wilderFrom_getElem_zero, avg_loss]
  rw [hg, hl]

theorem rsi_agrees_with_wilder_at_seed_witness :
    RSI_PERIOD < seriesFlat.length ∧
    (calculate_rsi seriesFlat RSI_PERIOD)[RSI_PERIOD]? =
      (rsi_wilder seriesFlat RSI_PERIOD)[RSI_PERIOD]? := by
  have h : RSI_PERIOD < seriesFlat.length := by norm_num [RSI_PERIOD, seriesFlat]
  exact ⟨h, rsi_agrees_with_wilder_at_seed seriesFlat RSI_PERIOD h⟩



/-- C4: at every index where the rolling windows are full, a zero average
loss with a nonzero average gain yields momentum exactly `100`, and a zero
average gain together with a zero average loss (flat run) yields exactly
`50`, the flat case overriding the division-by-zero case. -/
theorem rsi_edge_values (series : List ℚ) (period i : ℕ)
    (h1 : period ≤ i) (h2 : i < series.length) :
    (avg_loss series period i = 0 → avg_gain series period i ≠ 0 →
      (calculate_rsi series period)[i]? = some (some 100)) ∧
    (avg_gain series period i = 0 → avg_loss series period i = 0 →
      (calculate_rsi series period)[i]? = some (some 50)) := by
  rw [calculate_rsi_getElem series period i h1 h2]
  constructor
  · intro hl hg
    simp [rsiVal, hl, hg]
  · intro hg hl
    simp [rsiVal, hl, hg]

theorem rsi_edge_values_witness :
    ((14 : ℕ) ≤ 14 ∧ (14 : ℕ) < seriesUp.length ∧
      avg_loss seriesUp 14 14 = 0 ∧ avg_gain seriesUp 14 14 ≠ 0 ∧
      (calculate_rsi seriesUp 14)[14]? = some (some 100)) ∧
    ((14 : ℕ) ≤ 14 ∧ (14 : ℕ) < seriesFlat.length ∧
      avg_gain seriesFlat 14 14 = 0 ∧ avg_loss seriesFlat 14 14 = 0 ∧
      (calculate_rsi seriesFlat 14)[14]? = some (some 50)) := by
  have hu2 : (14 : ℕ) < seriesUp.length := by norm_num [seriesUp]
  have hf2 : (14 : ℕ) < seriesFlat.length := by norm_num [seriesFlat]
  have hul : avg_loss seriesUp 14 14 = 0 := by
    norm_num [avg_loss, losses, diffs, seriesUp]
  have hug : avg_gain seriesUp 14 14 ≠ 0 := by
    norm_num [avg_gain, gains, diffs, seriesUp]
  have hfg : avg_gain seriesFlat 14 14 = 0 := by
    norm_num [avg_gain, gains, diffs, seriesFlat, List.replicate]
  have hfl : avg_loss seriesFlat 14 14 = 0 := by
    norm_num [avg_loss, losses, diffs, seriesFlat, List.replicate]
  refine ⟨⟨le_rfl, hu2, hul, hug, ?_⟩, ⟨le_rfl, hf2, hfg, hfl, ?_⟩⟩
  · exact (rsi_edge_values seriesUp 14 14 le_rfl hu2).1 hul hug
  · exact (rsi_edge_values seriesFlat 14 14 le_rfl hf2).2 hfg hfl

/-- C5: whenever a position is held and the loss percentage relative to the
entry price is at or below `-STOP_LOSS_PERCENT`, `simulate_sell` executes a
forced sell — crediting cash with `quantity × price` and removing the
position — for every momentum value, including one below the sell
threshold. -/
theorem stop_loss_always_fires (st : BotState) (pair : String) (price : ℚ)
    (rsi : Option ℚ) (pos : Position)
    (hpos : dictGet st.portfolio.positions pair = some pos)
    (hloss : ((price - pos.buy_price) / pos.buy_price) * 100 ≤ -STOP_LOSS_PERCENT) :
    (simulate_sell st pair price rsi).1 = true ∧
    (simulate_sell st pair price rsi).2.portfolio.usdt =
      st.portfolio.usdt + pos.amount * price ∧
    dictGet (simulate_sell st pair price rsi).2.portfolio.positions pair = none := by
  simp only [simulate_sell, hpos, if_pos hloss]
  exact ⟨trivial, trivial, dictGet_dictDel_self _ _⟩

theorem stop_loss_always_fires_witness :
    dictGet holdingState.portfolio.positions "ETHUSDT" =
      some { amount := 1, buy_price := 100 } ∧
    ((94 - 100) / 100 : ℚ) * 100 ≤ -STOP_LOSS_PERCENT ∧
    (simulate_sell holdingState "ETHUSDT" 94 (some 60)).1 = true ∧
    (simulate_sell holdingState "ETHUSDT" 94 (some 60)).2.portfolio.usdt =
      holdingState.portfolio.usdt + 1 * 94 ∧
    dictGet (simulate_sell holdingState "ETHUSDT" 94 (some 60)).2.portfolio.positions
      "ETHUSDT" = none := by
  have hpos : dictGet holdingState.portfolio.positions "ETHUSDT" =
      some { amount := 1, buy_price := 100 } := by decide
  have hloss : ((94 - 100) / 100 : ℚ) * 100 ≤ -STOP_LOSS_PERCENT := by
    norm_num [STOP_LOSS_PERCENT]
  obtain ⟨w1, w2, w3⟩ :=
    stop_loss_always_fires holdingState "ETHUSDT" 94 (some 60) _ hpos hloss
  exact ⟨hpos, hloss, w1, w2, w3⟩



/-- C6: with the pair not currently held, a buy is placed only if the
momentum is strictly below `BUY_THRESHOLD` and the recent drop (computed on
the updated lookback buffer, and `0` while the buffer is short) is strictly
above `-RECENT_DROP_THRESHOLD`; whenever either condition fails the call
returns `False` and the portfolio is unchanged. -/
theorem buy_entry_conditions (st : BotState) (pair : String) (price : ℚ)
    (r : ℚ) (vol : ℚ)
    (hhold : dictGet st.portfolio.positions pair = none) :
    ((simulate_buy st pair price (some r) vol).1 = true →
      r < BUY_THRESHOLD ∧
      recentDropOf (pushHistory (st.price_history pair) price) price >
        -RECENT_DROP_THRESHOLD) ∧
    ((BUY_THRESHOLD ≤ r ∨
        recentDropOf (pushHistory (st.price_history pair) price) price ≤
          -RECENT_DROP_THRESHOLD) →
      (simulate_buy st pair price (some r) vol).1 = false ∧
      (simulate_buy st pair price (some r) vol).2.portfolio = st.portfolio) := by
  simp only [simulate_buy]
  split_ifs with h1 h2 h3 h4 h5 h6
  · exact ⟨fun h => absurd h (by simp), fun _ => ⟨rfl, rfl⟩⟩
  · exact ⟨fun h => absurd h (by simp), fun _ => ⟨rfl, rfl⟩⟩
  · exact ⟨fun h => absurd h (by simp), fun _ => ⟨rfl, rfl⟩⟩
  · exact ⟨fun h => absurd h (by simp), fun _ => ⟨rfl, rfl⟩⟩
  · exact ⟨fun h => absurd h (by simp), fun _ => ⟨rfl, rfl⟩⟩
  · exact ⟨fun _ => ⟨lt_of_not_le h2, lt_of_not_le h4⟩,
      fun hc => absurd hc (by push_neg; exact ⟨lt_of_not_le h2, lt_of_not_le h4⟩)⟩
  · exact ⟨fun h => absurd h (by simp), fun _ => ⟨rfl, rfl⟩⟩

theorem buy_entry_conditions_witness :
    dictGet initState.portfolio.positions "ETHUSDT" = none ∧
    BUY_THRESHOLD ≤ 40 ∧
    (simulate_buy initState "ETHUSDT" 100 (some 40) 1).1 = false ∧
    (simulate_buy initState "ETHUSDT" 100 (some 40) 1).2.portfolio =
      initState.portfolio := by
  have hhold : dictGet initState.portfolio.positions "ETHUSDT" = none := by decide
  have h40 : BUY_THRESHOLD ≤ (40 : ℚ) := by norm_num [BUY_THRESHOLD]
  obtain ⟨w1, w2⟩ :=
    (buy_entry_conditions initState "ETHUSDT" 100 40 1 hhold).2 (Or.inl h40)
  exact ⟨hhold, h40, w1, w2⟩

/-- C7: a buy order is never applied when the proposed spend
(cash × allocation fraction) is below `MIN_TRADE_USD`, for every volatility
value including zero: the call returns `False` and leaves the portfolio
exactly unchanged. -/
theorem min_trade_size_guard (st : BotState) (pair : String) (price : ℚ)
    (rsi : Option ℚ) (vol : ℚ)
    (h : st.portfolio.usdt * allocationPct vol < MIN_TRADE_USD) :
    (simulate_buy st pair price rsi vol).1 = false ∧
    (simulate_buy st pair price rsi vol).2.portfolio = st.portfolio := by
  rcases rsi with _ | r
  · exact ⟨rfl, rfl⟩
  · simp only [simulate_buy]
    split_ifs <;> exact ⟨rfl, rfl⟩

theorem min_trade_size_guard_witness :
    initState.portfolio.usdt * allocationPct 1 < MIN_TRADE_USD ∧
    (simulate_buy initState "ETHUSDT" 100 (some 25) 1).1 = false ∧
    (simulate_buy initState "ETHUSDT" 100 (some 25) 1).2.portfolio =
      initState.portfolio := by
  have h : initState.portfolio.usdt * allocationPct 1 < MIN_TRADE_USD := by
    norm_num [initState, STARTING_BALANCE, allocationPct, MIN_TRADE_USD]
  obtain ⟨w1, w2⟩ := min_trade_size_guard initState "ETHUSDT" 100 (some 25) 1 h
  exact ⟨h, w1, w2⟩



theorem tickStep_buys_bound (acc : TickAcc) (d : TickDatum)
    (h : acc.bought.length = acc.buys_this_cycle)
    (h1 : acc.buys_this_cycle ≤ max_buys_per_cycle) :
    (tickStep acc d).bought.length = (tickStep acc d).buys_this_cycle ∧
    (tickStep acc d).buys_this_cycle ≤ max_buys_per_cycle := by
  simp only [tickStep]
  split_ifs with hc hb
  · simp [h, Nat.succ_le_of_lt hc.2]
  · exact ⟨h, h1⟩
  · exact ⟨h, h1⟩

theorem foldl_tickStep_buys_bound (data : List TickDatum) (acc : TickAcc)
    (h : acc.bought.length = acc.buys_this_cycle)
    (h1 : acc.buys_this_cycle ≤ max_buys_per_cycle) :
    (data.foldl tickStep acc).bought.length = (data.foldl tickStep acc).buys_this_cycle ∧
    (data.foldl tickStep acc).buys_this_cycle ≤ max_buys_per_cycle := by
  induction data generalizing acc with
  | nil => exact ⟨h, h1⟩
  | cons d rest ih =>
    obtain ⟨g, g1⟩ := tickStep_buys_bound acc d h h1
    exact ih _ g g1

/-- C8 (amended): one cycle of `main` never buys more than
`max_buys_per_cycle = 1` instrument; candidates are visited in the fixed
`TRADING_PAIRS` order and the first successful buy consumes the only slot,
with no ranking by momentum. -/
theorem at_most_one_buy_per_cycle (st : BotState) (data : List TickDatum) :
    (runTick st data).bought.length ≤ max_buys_per_cycle := by
  obtain ⟨h1, h2⟩ := foldl_tickStep_buys_bound data
    { st := st, buys_this_cycle := 0, bought := [] } rfl (by norm_num)
  rw [runTick, h1]
  exact h2

/-- C8 (counterexample): two buy candidates, `'ETHUSDT'` at momentum 28
listed before `'BTCUSDT'` at momentum 20, one buy slot; the code buys the
momentum-28 candidate — the first in list order — not the momentum-20 one,
even though the momentum-20 candidate would have been bought on its own. -/
theorem first_listed_candidate_bought_not_lowest_momentum :
    (runTick initState cexData).bought = ["ETHUSDT"] ∧
    (simulate_buy initState "BTCUSDT" 100 (some 20) (2/5)).1 = true ∧
    "BTCUSDT" ∉ (runTick initState cexData).bought := by
  refine ⟨?_, ?_, ?_⟩ <;>
    norm_num [runTick, cexData, tickStep, simulate_sell, simulate_buy, initState, dictGet,
      dictSet, pushHistory, recentDropOf, allocationPct, rsiAboveSell, max_buys_per_cycle,
      LOOKBACK_PERIOD, BUY_THRESHOLD, SELL_THRESHOLD, RECENT_DROP_THRESHOLD, MIN_TRADE_USD,
      STARTING_BALANCE] <;> decide

/-- C9 (counterexample): in the spec's scenario — cash `200`, momentum `25`,
allocation fraction `0.2` (volatility `1`), recent drop `-2%`, pair not held —
no buy is issued at price `98`: the proposed spend `40` is below
`MIN_TRADE_USD = 50`, so the cash balance stays `200` instead of dropping to
`160`. -/
theorem scenario_buy_not_issued :
    (simulate_buy scenarioState "ETHUSDT" 98 (some 25) 1).1 ≠ true ∧
    (simulate_buy scenarioState "ETHUSDT" 98 (some 25) 1).2.portfolio.usdt = 200 := by
  constructor <;>
    norm_num [simulate_buy, scenarioState, dictGet, pushHistory, recentDropOf,
      allocationPct, LOOKBACK_PERIOD, BUY_THRESHOLD, RECENT_DROP_THRESHOLD,
      MIN_TRADE_USD, List.replicate]

/-- C9 (amended): in that scenario the conditions are as the spec states —
momentum `25 < 30`, recent drop exactly `-2%` (above `-5%`), allocation
fraction `0.2` of cash `200` proposing a spend of `40` — but `40` is below
the minimum trade size `50`, so `simulate_buy` returns `False` and the
portfolio is unchanged. -/
theorem scenario_buy_blocked_by_min_trade :
    recentDropOf (pushHistory (scenarioState.price_history "ETHUSDT") 98) 98 = -2 ∧
    scenarioState.portfolio.usdt * allocationPct 1 = 40 ∧
    (40 : ℚ) < MIN_TRADE_USD ∧
    (simulate_buy scenarioState "ETHUSDT" 98 (some 25) 1).1 = false ∧
    (simulate_buy scenarioState "ETHUSDT" 98 (some 25) 1).2.portfolio =
      scenarioState.portfolio := by
  refine ⟨?_, ?_, ?_, ?_, ?_⟩ <;>
    norm_num [simulate_buy, scenarioState, dictGet, pushHistory, recentDropOf,
      allocationPct, LOOKBACK_PERIOD, BUY_THRESHOLD, RECENT_DROP_THRESHOLD,
      MIN_TRADE_USD, List.replicate]

/-- C10: whenever `simulate_buy` or `simulate_sell` returns `False`, the
portfolio (cash and positions) is exactly unchanged; a rejected buy may still
update the pair's price-history buffer, but a rejected sell changes nothing
at all. -/
theorem rejected_call_preserves_portfolio :
    (∀ st pair price rsi vol, (simulate_buy st pair price rsi vol).1 = false →
      (simulate_buy st pair price rsi vol).2.portfolio = st.portfolio) ∧
    (∀ st pair price rsi, (simulate_sell st pair price rsi).1 = false →
      (simulate_sell st pair price rsi).2 = st) := by
  constructor
  · intro st pair price rsi vol h
    rcases rsi with _ | r
    · rfl
    · simp only [simulate_buy] at h ⊢
      split_ifs at h ⊢ <;> rfl
  · intro st pair price rsi h
    rcases hpos : dictGet st.portfolio.positions pair with _ | pos
    · simp only [simulate_sell, hpos]
    · simp only [simulate_sell, hpos] at h ⊢
      split_ifs at h ⊢ <;> rfl

theorem rejected_call_preserves_portfolio_witness :
    (simulate_buy initState "ETHUSDT" 100 (some 40) 1).1 = false ∧
    (simulate_buy initState "ETHUSDT" 100 (some 40) 1).2.portfolio =
      initState.portfolio ∧
    (simulate_sell initState "ETHUSDT" 100 (some 80)).1 = false ∧
    (simulate_sell initState "ETHUSDT" 100 (some 80)).2 = initState := by
  have hb : (simulate_buy initState "ETHUSDT" 100 (some 40) 1).1 = false := by
    norm_num [simulate_buy, initState, dictGet, BUY_THRESHOLD]
  have hs : (simulate_sell initState "ETHUSDT" 100 (some 80)).1 = false := by
    norm_num [simulate_sell, initState, dictGet]
  exact ⟨hb, rejected_call_preserves_portfolio.1 _ _ _ _ _ hb,
    hs, rejected_call_preserves_portfolio.2 _ _ _ _ hs⟩


end RsiSimBot
